import Mathlib

/-!
Verification of the dataframe-loading core of `pandasai/smart_dataframe/__init__.py`.

The Python classes `SmartDataframeCore` and `SmartDataframe` are shallowly
embedded below.  Python objects that matter for aliasing (dataframes returned
by `.copy()` / `.clone()`) live in an explicit object store `Mem`; a Python
reference is an index into that store.  Exceptions are modelled by an
`Except PyErr` result carried next to the post-state, so a raise that happens
after a partial field update leaves that update visible, exactly as in Python.
-/

set_option maxRecDepth 2000

/-- The concrete table backend of a materialized dataframe object.
`other` stands for any Python object that is none of the three known
backends (pandas, modin, polars). -/
inductive Backend where
  | pandas
  | modin
  | polars
  | other
  deriving DecidableEq, Repr

/-- The pandas dtype of a column, as far as the reviewed code inspects it:
`df[col].dtype == "object"` (for polars, `df[col].dtype == pl.Utf8`). -/
inductive Dtype where
  | object
  | numeric
  deriving DecidableEq, Repr

/-- A cell of an object-dtype column: a Python `str`, or any non-string value
(`NaN`, numbers, ...) for which `isinstance(v, str)` is false and on which
`.str` accessors produce non-string results. -/
inductive Cell where
  | str (s : String)
  | na
  deriving DecidableEq, Repr

/-- One named column of a dataframe. -/
structure Column where
  name : String
  dtype : Dtype
  cells : List Cell
  deriving DecidableEq, Repr

/-- A materialized dataframe value: its backend plus its ordered columns. -/
structure Table where
  backend : Backend
  cols : List Column
  deriving DecidableEq, Repr

/-- The default table used when dereferencing (never reached by valid states). -/
def Table.default : Table := ⟨Backend.pandas, []⟩

/-- The Python object store: dataframe objects indexed by allocation order.
A Python reference to a dataframe is an index into `tables`. -/
structure Mem where
  tables : List Table
  deriving DecidableEq, Repr

/-- Dereference a table object. -/
def Mem.get (m : Mem) (r : Nat) : Table :=
  m.tables.getD r Table.default

/-- Allocate a fresh table object, returning the new store and the new
reference.  Models Python object creation (`.copy()`, `.clone()`,
`pd.DataFrame(...)`, `connector.execute()`, file readers). -/
def Mem.alloc (m : Mem) (t : Table) : Mem × Nat :=
  (⟨m.tables ++ [t]⟩, m.tables.length)

/-- Mutate the table object behind reference `r` in place. -/
def Mem.set (m : Mem) (r : Nat) (t : Table) : Mem :=
  ⟨m.tables.set r t⟩

theorem Mem.get_alloc_self (m : Mem) (t : Table) :
    (m.alloc t).1.get (m.alloc t).2 = t := by
  simp [Mem.alloc, Mem.get, List.getD_eq_getElem?_getD, List.getElem?_append_right]

theorem Mem.get_alloc_lt (m : Mem) (t : Table) (r : Nat) (h : r < m.tables.length) :
    (m.alloc t).1.get r = m.get r := by
  simp [Mem.alloc, Mem.get, List.getD_eq_getElem?_getD, List.getElem?_append_left h]

theorem Mem.get_set_ne (m : Mem) (i j : Nat) (t : Table) (h : j ≠ i) :
    (m.set i t).get j = m.get j := by
  simp [Mem.set, Mem.get, List.getD_eq_getElem?_getD, List.getElem?_set_ne (Ne.symm h)]

theorem Mem.alloc_tables_length (m : Mem) (t : Table) :
    (m.alloc t).1.tables.length = m.tables.length + 1 := by
  simp [Mem.alloc]

theorem Mem.set_tables_length (m : Mem) (r : Nat) (t : Table) :
    (m.set r t).tables.length = m.tables.length := by
  simp [Mem.set]

/-- Load-time failures raised by `SmartDataframeCore` (spec taxonomy names). -/
inductive LoadError where
  | invalidFileFormat
  | unconvertibleInput
  | unrecognizedEngine
  | engineMismatch
  deriving DecidableEq, Repr

/-- Any Python exception observable in the embedded fragment. -/
inductive PyErr where
  | loadErr (e : LoadError)
  | attrError
  | indexError
  | unsupportedEngine
  deriving DecidableEq, Repr

/-- Modelled from the spec: `BaseConnector` (`connectors/base.py`, not under
`src/`).  The spec's Connector contract consumes `execute() -> Table`,
`head() -> Table|nothing`, and a stable `columnHash -> string`; these are
modelled as the data the concrete connector would produce, plus an opaque
identity used by connector equality. -/
structure Connector where
  result : Table
  headResult : Option Table
  colHash : String
  id : Nat
  deriving DecidableEq, Repr

/-- The mutable fields of a `SmartDataframeCore` instance:
`_df` (a reference into the object store or Python `None`), `_df_loaded`,
`_temporary_loaded`, `_connector`, `_engine` (a backend-name string or
`None`; only detected tags are ever stored). -/
structure CoreState where
  df : Option Nat
  dfLoaded : Bool
  temporaryLoaded : Bool
  connector : Option Connector
  engine : Option Backend
  deriving DecidableEq, Repr

/-- `has_connector` property: `self._connector is not None`. -/
def CoreState.hasConnector (s : CoreState) : Bool :=
  s.connector.isSome

/-- The ambient process configuration and external I/O consumed by the core:
`cfg` is the eager backend the `pandasai.pandas` module is configured to
(`pd.DataFrame` is `cfg`'s dataframe class), and the readers model
`pd.read_csv` / `pd.read_parquet` / `pd.read_excel` / `from_google_sheets`. -/
structure Env where
  cfg : Backend
  readCsv : String → Table
  readParquet : String → Table
  readExcel : String → Table
  gsheets : String → List Table

/-- Python `str.endswith`. -/
def strEndsWith (s suf : String) : Bool :=
  List.isSuffixOf suf.data s.data

/-- Python `str.startswith`. -/
def strStartsWith (s pre : String) : Bool :=
  List.isPrefixOf pre.data s.data

/-- Which reader `_import_from_file` dispatches a path to. -/
inductive Route where
  | csv (p : String)
  | parquet (p : String)
  | xlsx (p : String)
  | gsheetFirst (p : String)
  deriving DecidableEq, Repr

/-- `SmartDataframeCore._import_from_file`, dispatch part: the chain of
`endswith` / `startswith` tests selecting a reader, else
`ValueError("Invalid file format.")`. -/
def import_from_file (p : String) : Except LoadError Route :=
  if strEndsWith p ".csv" then .ok (.csv p)
  else if strEndsWith p ".parquet" then .ok (.parquet p)
  else if strEndsWith p ".xlsx" then .ok (.xlsx p)
  else if strStartsWith p "https://docs.google.com/spreadsheets/" then .ok (.gsheetFirst p)
  else .error .invalidFileFormat

/-- Running the selected reader: `pd.read_csv(p)` / `pd.read_parquet(p)` /
`pd.read_excel(p)` / `from_google_sheets(p)[0]` (the `[0]` raises IndexError
on an empty result list). -/
def runRoute (env : Env) : Route → Except PyErr Table
  | .csv p => .ok (env.readCsv p)
  | .parquet p => .ok (env.readParquet p)
  | .xlsx p => .ok (env.readExcel p)
  | .gsheetFirst p =>
    match env.gsheets p with
    | [] => .error .indexError
    | t :: _ => .ok t

/-- The input shapes `_validate_and_convert_dataframe` distinguishes:
an already-materialized table object (a reference), Python `None`, a path
string, or a list/dict whose `pd.DataFrame(...)` conversion either yields a
table or raises `ValueError` (carried as `none`). -/
inductive DFInput where
  | table (r : Nat)
  | pyNone
  | str (p : String)
  | listLike (conv : Option Table)
  deriving DecidableEq, Repr

/-- `SmartDataframeCore._validate_and_convert_dataframe`: strings go through
`_import_from_file`, lists/dicts through `pd.DataFrame` (re-raised as
"Invalid input data. We cannot convert it to a dataframe." on `ValueError`),
everything else is passed through unchanged. -/
def validateAndConvert (env : Env) (m : Mem) (inp : DFInput) :
    Mem × Except PyErr (Option Nat) :=
  match inp with
  | .table r => (m, .ok (some r))
  | .pyNone => (m, .ok none)
  | .str p =>
    match import_from_file p with
    | .error e => (m, .error (.loadErr e))
    | .ok route =>
      match runRoute env route with
      | .error e => (m, .error e)
      | .ok t =>
        let a := m.alloc t
        (a.1, .ok (some a.2))
  | .listLike conv =>
    match conv with
    | some t =>
      let a := m.alloc t
      (a.1, .ok (some a.2))
    | none => (m, .error (.loadErr .unconvertibleInput))

/-- Modelled from the spec: `df_type` (`helpers/df_info.py`, not under
`src/`) inspects the concrete backend type of a table and returns the
matching engine tag from the closed set {pandas, modin, polars}, or `None`
for anything else. -/
def dfType (t : Table) : Option Backend :=
  match t.backend with
  | .pandas => some .pandas
  | .modin => some .modin
  | .polars => some .polars
  | .other => none

/-- `SmartDataframeCore._load_engine`: detect the engine of `self._df`;
raise on an unrecognized backend; raise an engine-mismatch `ValueError`
when the detected engine is not polars and `self._df` is not an instance of
the configured `pd.DataFrame` class; otherwise store the tag in
`self._engine`. -/
def loadEngine (env : Env) (m : Mem) (s : CoreState) :
    CoreState × Except PyErr Unit :=
  match s.df with
  | none => (s, .error (.loadErr .unrecognizedEngine))
  | some r =>
    let t := m.get r
    match dfType t with
    | none => (s, .error (.loadErr .unrecognizedEngine))
    | some eng =>
      if eng ≠ Backend.polars ∧ t.backend ≠ env.cfg then
        (s, .error (.loadErr .engineMismatch))
      else
        ({ s with engine := some eng }, .ok ())

/-- The `dataframe` property setter: validate/convert the input, assign
`self._df`, then (if the new value is not `None`) run `_load_engine`.
The assignment precedes the engine check, so an engine failure leaves the
new `_df` in place (the returned state) while the error propagates. -/
def setDataframe (env : Env) (m : Mem) (s : CoreState) (inp : DFInput) :
    Mem × CoreState × Except PyErr Unit :=
  match validateAndConvert env m inp with
  | (m1, .error e) => (m1, s, .error e)
  | (m1, .ok r?) =>
    let s1 := { s with df := r? }
    match r? with
    | none => (m1, s1, .ok ())
    | some _ =>
      match loadEngine env m1 s1 with
      | (s2, .ok ()) => (m1, s2, .ok ())
      | (s2, .error e) => (m1, s2, .error e)

/-- `SmartDataframeCore._unload_connector`: clear `_df`, `_df_loaded`,
`_temporary_loaded`; the connector and engine tag are retained. -/
def unloadConnector (s : CoreState) : CoreState :=
  { s with df := none, dfLoaded := false, temporaryLoaded := false }

/-- `.copy()` on a pandas/modin dataframe: a deep copy — same value behind a
fresh reference (allocation happens at the call site). -/
def Table.copy (t : Table) : Table := t

/-- `.clone()` on a polars dataframe: same value behind a fresh reference. -/
def Table.clone (t : Table) : Table := t

/-- The `dataframe` property getter of `SmartDataframeCore`: when loaded,
build `return_df` as an engine-appropriate copy of `_df` (calling a method
on `None` when `_df` is `None` raises AttributeError), unload afterwards if
the load was temporary and a connector is present, and return the copy;
when not loaded, return `None` (explicitly under a connector, implicitly
otherwise). -/
def getDataframe (m : Mem) (s : CoreState) :
    Mem × CoreState × Except PyErr (Option Nat) :=
  if s.dfLoaded then
    let step :=
      match s.engine with
      | some Backend.polars =>
        match s.df with
        | some r =>
          let a := m.alloc (Table.clone (m.get r))
          Except.ok (a.1, some a.2)
        | none => Except.error PyErr.attrError
      | some Backend.pandas | some Backend.modin =>
        match s.df with
        | some r =>
          let a := m.alloc (Table.copy (m.get r))
          Except.ok (a.1, some a.2)
        | none => Except.error PyErr.attrError
      | some Backend.other | none => Except.ok (m, none)
    match step with
    | .error e => (m, s, .error e)
    | .ok (m1, ret) =>
      if s.hasConnector ∧ s.dfLoaded ∧ s.temporaryLoaded then
        (m1, unloadConnector s, .ok ret)
      else
        (m1, s, .ok ret)
  else if s.hasConnector then
    (m, s, .ok none)
  else
    (m, s, .ok none)

/-- `SmartDataframeCore.load_connector`: `self.dataframe =
self.connector.execute()` (AttributeError when no connector is present;
`execute()` materializes a fresh table object), then set `_df_loaded` and
`_temporary_loaded`.  A failure inside the setter propagates before the two
flags are written. -/
def loadConnector (env : Env) (m : Mem) (s : CoreState) (temporary : Bool) :
    Mem × CoreState × Except PyErr Unit :=
  match s.connector with
  | none => (m, s, .error .attrError)
  | some c =>
    let a := m.alloc c.result
    match setDataframe env a.1 s (.table a.2) with
    | (m2, s2, .ok ()) =>
      (m2, { s2 with dfLoaded := true, temporaryLoaded := temporary }, .ok ())
    | (m2, s2, .error e) => (m2, s2, .error e)

/-- `Series.str.slice(a, b)` applied cell-wise: slices strings, maps
non-string values to NaN. -/
def sliceCell (a b : Nat) : Cell → Cell
  | .str s => .str (String.mk ((s.data.drop a).take (b - a)))
  | .na => .na

/-- One pandas/modin column pass of `_truncate_head_columns`: for an
object-dtype column, read `df[col].iloc[0]` (IndexError on an empty frame);
when it is a string longer than `max_size`, execute
`df_trunc[col] = f"{df_trunc[col].str.slice(0, max_size - 3)}..."` — the
f-string formats the *Series object* via `str()` and the scalar result is
broadcast to every row of the column.  `reprFn` stands for Python's
`str()` of a pandas Series, which this file does not fix. -/
def truncPandasColumn (reprFn : List Cell → String) (maxSize : Nat) (c : Column) :
    Except PyErr Column :=
  if c.dtype = Dtype.object then
    match c.cells with
    | [] => .error .indexError
    | firstVal :: _ =>
      match firstVal with
      | .str s =>
        if maxSize < s.length then
          .ok { c with cells :=
            c.cells.map (fun _ =>
              Cell.str (reprFn (c.cells.map (sliceCell 0 (maxSize - 3))) ++ "...")) }
        else .ok c
      | .na => .ok c
  else .ok c

/-- One polars column pass of `_truncate_head_columns`: the guard tests
`df[col].dtype == pl.Utf8` (modelled by the object dtype tag),
`df[col][0]` (IndexError analogue on empty), `isinstance(first_val, str)`
and — unlike the pandas branch — `len(df_trunc[col]) > max_size`, the
length of the *Series* (the row count), not of the first value; the
assignment is the same broadcast f-string. -/
def truncPolarsColumn (reprFn : List Cell → String) (maxSize : Nat) (c : Column) :
    Except PyErr Column :=
  if c.dtype = Dtype.object then
    match c.cells with
    | [] => .error .indexError
    | firstVal :: _ =>
      match firstVal with
      | .str _ =>
        if maxSize < c.cells.length then
          .ok { c with cells :=
            c.cells.map (fun _ =>
              Cell.str (reprFn (c.cells.map (sliceCell 0 (maxSize - 3))) ++ "...")) }
        else .ok c
      | .na => .ok c
  else .ok c

/-- `SmartDataframe._truncate_head_columns(df, max_size=25)`: dispatch on
`df_type(df)`; pandas/modin and polars branches process each column as
above on a copy of the frame; any other engine raises
`ValueError("Unrecognized engine ...")`. -/
def truncate_head_columns (reprFn : List Cell → String) (df : Table)
    (maxSize : Nat := 25) : Except PyErr Table :=
  match dfType df with
  | some Backend.pandas | some Backend.modin =>
    (df.cols.mapM (truncPandasColumn reprFn maxSize)).map
      (fun cs => { df with cols := cs })
  | some Backend.polars =>
    (df.cols.mapM (truncPolarsColumn reprFn maxSize)).map
      (fun cs => { df with cols := cs })
  | some Backend.other | none => .error .unsupportedEngine

/-- `df.head(n)`: the first `n` rows. -/
def Table.head (t : Table) (n : Nat) : Table :=
  { t with cols := t.cols.map (fun c => { c with cells := c.cells.take n }) }

/-- Modelled from the spec: `DataSampler.sample` (`helpers/data_sampler.py`,
not under `src/`).  The spec exposes it only as a capability
`sample(table, rowBudget) -> Table` producing a small representative slice
with `rowBudget` rows; it is modelled as taking the first `rowBudget` rows. -/
def dataSamplerSample (t : Table) (rowBudget : Nat) : Table :=
  Table.head t rowBudget

/-- `SmartDataframe._get_sample_head`: row budget 0 under privacy else 3;
base preview from the custom head if set (its CSV round-trip through
`self.custom_head` is modelled as the identity), else from
`connector.head()` when unloaded with a connector, else from
`self.dataframe.head(rows_to_display)` (AttributeError when the dataframe
property yields `None`); `None` previews short-circuit; the preview is then
passed through `DataSampler.sample` and, unless privacy is enforced,
through `_truncate_head_columns`. -/
def getSampleHead (reprFn : List Cell → String) (m : Mem) (s : CoreState)
    (customHead : Option Table) (privacy : Bool) :
    Mem × CoreState × Except PyErr (Option Table) :=
  let rowsToDisplay := if privacy then 0 else 3
  let afterHead : Mem × CoreState × Except PyErr (Option Table) :=
    match customHead with
    | some ch => (m, s, .ok (some ch))
    | none =>
      if s.dfLoaded = false ∧ s.hasConnector then
        match s.connector with
        | some c => (m, s, .ok c.headResult)
        | none => (m, s, .ok none)
      else
        match getDataframe m s with
        | (m1, s1, .ok (some r)) => (m1, s1, .ok (some (Table.head (m1.get r) rowsToDisplay)))
        | (m1, s1, .ok none) => (m1, s1, .error .attrError)
        | (m1, s1, .error e) => (m1, s1, .error e)
  match afterHead with
  | (m1, s1, .error e) => (m1, s1, .error e)
  | (m1, s1, .ok none) => (m1, s1, .ok none)
  | (m1, s1, .ok (some h)) =>
    let sampledHead := dataSamplerSample h rowsToDisplay
    if privacy then (m1, s1, .ok (some sampledHead))
    else
      match truncate_head_columns reprFn sampledHead with
      | .ok t => (m1, s1, .ok (some t))
      | .error e => (m1, s1, .error e)

/-- Truncate to a 32-bit word. -/
def w32 (x : Nat) : Nat := x % 4294967296

/-- 32-bit rotate right. -/
def rotr32 (n x : Nat) : Nat := w32 ((x >>> n) ||| (x <<< (32 - n)))

/-- SHA-256 big sigma 0. -/
def bSig0 (x : Nat) : Nat := (rotr32 2 x) ^^^ (rotr32 13 x) ^^^ (rotr32 22 x)

/-- SHA-256 big sigma 1. -/
def bSig1 (x : Nat) : Nat := (rotr32 6 x) ^^^ (rotr32 11 x) ^^^ (rotr32 25 x)

/-- SHA-256 small sigma 0. -/
def sSig0 (x : Nat) : Nat := (rotr32 7 x) ^^^ (rotr32 18 x) ^^^ (x >>> 3)

/-- SHA-256 small sigma 1. -/
def sSig1 (x : Nat) : Nat := (rotr32 17 x) ^^^ (rotr32 19 x) ^^^ (x >>> 10)

/-- SHA-256 choose. -/
def shaCh (x y z : Nat) : Nat := (x &&& y) ^^^ ((x ^^^ 4294967295) &&& z)

/-- SHA-256 majority. -/
def shaMaj (x y z : Nat) : Nat := (x &&& y) ^^^ (x &&& z) ^^^ (y &&& z)

/-- SHA-256 round constants (FIPS 180-4), in decimal. -/
def sha256K : List Nat :=
  [1116352408, 1899447441, 3049323471, 3921009573, 961987163,
   1508970993, 2453635748, 2870763221, 3624381080, 310598401,
   607225278, 1426881987, 1925078388, 2162078206, 2614888103,
   3248222580, 3835390401, 4022224774, 264347078, 604807628,
   770255983, 1249150122, 1555081692, 1996064986, 2554220882,
   2821834349, 2952996808, 3210313671, 3336571891, 3584528711,
   113926993, 338241895, 666307205, 773529912, 1294757372,
   1396182291, 1695183700, 1986661051, 2177026350, 2456956037,
   2730485921, 2820302411, 3259730800, 3345764771, 3516065817,
   3600352804, 4094571909, 275423344, 430227734, 506948616,
   659060556, 883997877, 958139571, 1322822218, 1537002063,
   1747873779, 1955562222, 2024104815, 2227730452, 2361852424,
   2428436474, 2756734187, 3204031479, 3329325298]

/-- SHA-256 initial hash state (FIPS 180-4), in decimal. -/
def sha256H0 : List Nat :=
  [1779033703, 3144134277, 1013904242, 2773480762, 1359893119,
   2600822924, 528734635, 1541459225]

/-- The 8 bytes of `n` in big-endian order. -/
def be64 (n : Nat) : List Nat :=
  [(n >>> 56) &&& 255, (n >>> 48) &&& 255, (n >>> 40) &&& 255, (n >>> 32) &&& 255,
   (n >>> 24) &&& 255, (n >>> 16) &&& 255, (n >>> 8) &&& 255, n &&& 255]

/-- SHA-256 padding: append `0x80`, zero bytes to 56 mod 64, then the
big-endian 64-bit bit length. -/
def sha256Pad (msg : List Nat) : List Nat :=
  let L := msg.length
  let z := (55 + 64 - (L % 64)) % 64
  msg ++ [0x80] ++ List.replicate z 0 ++ be64 (8 * L)

/-- Split a byte list into `k`-byte groups; `fuel` bounds the recursion
depth (any fuel at least the list length splits the whole list). -/
def chunksAux (k : Nat) : Nat → List Nat → List (List Nat)
  | 0, _ => []
  | _, [] => []
  | fuel + 1, x :: xs => ((x :: xs).take k) :: chunksAux k fuel ((x :: xs).drop k)

/-- Split a byte list into 64-byte blocks. -/
def chunks64 (l : List Nat) : List (List Nat) :=
  chunksAux 64 l.length l

/-- Split a byte list into 4-byte groups. -/
def chunks4 (l : List Nat) : List (List Nat) :=
  chunksAux 4 l.length l

/-- Big-endian word value of a byte group. -/
def beWord (bs : List Nat) : Nat :=
  bs.foldl (fun a b => a * 256 + b) 0

/-- Message schedule: extend the 16 block words to 64. -/
def sha256Schedule (ws : List Nat) : List Nat :=
  (List.range 48).foldl
    (fun w _ =>
      w ++ [w32 (sSig1 (w.getD (w.length - 2) 0) + w.getD (w.length - 7) 0 +
                 sSig0 (w.getD (w.length - 15) 0) + w.getD (w.length - 16) 0)])
    ws

/-- One SHA-256 compression round. -/
def sha256Round (st : Nat × Nat × Nat × Nat × Nat × Nat × Nat × Nat) (kw : Nat × Nat) :
    Nat × Nat × Nat × Nat × Nat × Nat × Nat × Nat :=
  match st, kw with
  | (a, b, c, d, e, f, g, h), (k, w) =>
    let t1 := w32 (h + bSig1 e + shaCh e f g + k + w)
    let t2 := w32 (bSig0 a + shaMaj a b c)
    (w32 (t1 + t2), a, b, c, w32 (d + t1), e, f, g)

/-- Compress one 64-byte block into the running hash state. -/
def sha256Block (hs : List Nat) (block : List Nat) : List Nat :=
  let ws := sha256Schedule ((chunks4 block).map beWord)
  let init := (hs.getD 0 0, hs.getD 1 0, hs.getD 2 0, hs.getD 3 0,
               hs.getD 4 0, hs.getD 5 0, hs.getD 6 0, hs.getD 7 0)
  match (sha256K.zip ws).foldl sha256Round init with
  | (a, b, c, d, e, f, g, h) =>
    [w32 (hs.getD 0 0 + a), w32 (hs.getD 1 0 + b), w32 (hs.getD 2 0 + c),
     w32 (hs.getD 3 0 + d), w32 (hs.getD 4 0 + e), w32 (hs.getD 5 0 + f),
     w32 (hs.getD 6 0 + g), w32 (hs.getD 7 0 + h)]

/-- SHA-256 of a byte sequence, as the 8 32-bit state words. -/
def sha256Words (msg : List Nat) : List Nat :=
  (chunks64 (sha256Pad msg)).foldl sha256Block sha256H0

/-- Lowercase hex digit. -/
def hexDigit (n : Nat) : Char :=
  if n < 10 then Char.ofNat (48 + n) else Char.ofNat (87 + n)

/-- Lowercase 8-hex-digit rendering of a 32-bit word. -/
def hex8 (x : Nat) : String :=
  String.mk ((List.range 8).map (fun i => hexDigit ((x >>> (28 - 4 * i)) &&& 15)))

/-- `hashlib.sha256(bytes).hexdigest()`: the lowercase hex digest. -/
def sha256Hex (msg : List Nat) : String :=
  String.join ((sha256Words msg).map hex8)

/-- UTF-8 encoding of one character (Python `str.encode()`). -/
def utf8Char (c : Char) : List Nat :=
  let n := c.toNat
  if n < 0x80 then [n]
  else if n < 0x800 then
    [0xC0 ||| (n >>> 6), 0x80 ||| (n &&& 0x3F)]
  else if n < 0x10000 then
    [0xE0 ||| (n >>> 12), 0x80 ||| ((n >>> 6) &&& 0x3F), 0x80 ||| (n &&& 0x3F)]
  else
    [0xF0 ||| (n >>> 18), 0x80 ||| ((n >>> 12) &&& 0x3F),
     0x80 ||| ((n >>> 6) &&& 0x3F), 0x80 ||| (n &&& 0x3F)]

/-- UTF-8 encoding of a string (Python `str.encode()`). -/
def utf8Encode (s : String) : List Nat :=
  (s.data.map utf8Char).flatten

/-- `"".join(df.columns)`: the column names concatenated with no separator. -/
def columnsJoined (t : Table) : String :=
  String.join (t.cols.map Column.name)

/-- `SmartDataframe.column_hash`: delegate to the connector's `column_hash`
when unloaded with a connector; otherwise hash the joined column names of
the `dataframe` property's result (reading the property, with its possible
temporary-unload side effect; `None.columns` raises AttributeError). -/
def column_hash (m : Mem) (s : CoreState) :
    Mem × CoreState × Except PyErr String :=
  if s.dfLoaded = false ∧ s.hasConnector then
    match s.connector with
    | some c => (m, s, .ok c.colHash)
    | none => (m, s, .error .attrError)
  else
    match getDataframe m s with
    | (m1, s1, .ok (some r)) =>
      (m1, s1, .ok (sha256Hex (utf8Encode (columnsJoined (m1.get r)))))
    | (m1, s1, .ok none) => (m1, s1, .error .attrError)
    | (m1, s1, .error e) => (m1, s1, .error e)

/-- `SmartDataframe.__eq__`: when both sides are SmartDataframes (the model
types guarantee the `isinstance` test) and both cores hold a connector,
delegate to `connector.equals` (`eqFn`, an external collaborator);
otherwise return `False`. -/
def smartEq (eqFn : Connector → Connector → Bool) (a b : CoreState) : Bool :=
  if a.hasConnector && b.hasConnector then
    match a.connector, b.connector with
    | some c1, some c2 => eqFn c1 c2
    | _, _ => false
  else false

theorem setDataframe_table (env : Env) (m : Mem) (s : CoreState) (r : Nat) :
    setDataframe env m s (.table r) =
      match dfType (m.get r) with
      | none => (m, { s with df := some r }, .error (.loadErr .unrecognizedEngine))
      | some eng =>
        if eng ≠ Backend.polars ∧ (m.get r).backend ≠ env.cfg then
          (m, { s with df := some r }, .error (.loadErr .engineMismatch))
        else
          (m, { s with df := some r, engine := some eng }, .ok ()) := by
  cases h : dfType (m.get r) with
  | none => simp [setDataframe, validateAndConvert, loadEngine, h]
  | some eng =>
    by_cases hcond : eng ≠ Backend.polars ∧ (m.get r).backend ≠ env.cfg <;>
      simp [setDataframe, validateAndConvert, loadEngine, h, hcond]

theorem loadConnector_ok (env : Env) (m : Mem) (s : CoreState) (c : Connector)
    (temp : Bool) (hc : s.connector = some c)
    (hdet : c.result.backend ≠ Backend.other)
    (hcompat : c.result.backend = Backend.polars ∨ c.result.backend = env.cfg) :
    loadConnector env m s temp =
      (⟨m.tables ++ [c.result]⟩,
       { s with df := some m.tables.length, engine := some c.result.backend,
                dfLoaded := true, temporaryLoaded := temp },
       .ok ()) := by
  have hget : (m.alloc c.result).1.get (m.alloc c.result).2 = c.result :=
    Mem.get_alloc_self m c.result
  simp only [loadConnector, hc, setDataframe_table, hget]
  cases hbk : c.result.backend with
  | other => exact absurd hbk hdet
  | polars => simp [dfType, hbk, Mem.alloc]
  | pandas =>
    have hcfg : env.cfg = Backend.pandas := by
      rcases hcompat with h | h
      · rw [hbk] at h; exact absurd h (by simp)
      · rw [← h, hbk]
    simp [dfType, hbk, hcfg, Mem.alloc]
  | modin =>
    have hcfg : env.cfg = Backend.modin := by
      rcases hcompat with h | h
      · rw [hbk] at h; exact absurd h (by simp)
      · rw [← h, hbk]
    simp [dfType, hbk, hcfg, Mem.alloc]

theorem getDataframe_loaded (m : Mem) (s : CoreState) (r : Nat) (e : Backend)
    (hld : s.dfLoaded = true) (hdf : s.df = some r) (heng : s.engine = some e)
    (he : e ≠ Backend.other) :
    getDataframe m s =
      (⟨m.tables ++ [m.get r]⟩,
       (if s.hasConnector ∧ s.temporaryLoaded then unloadConnector s else s),
       Except.ok (some m.tables.length)) := by
  cases e <;>
    simp_all [getDataframe, Table.copy, Table.clone, Mem.alloc] <;>
    split <;> simp_all

theorem getDataframe_unloaded (m : Mem) (s : CoreState) (hld : s.dfLoaded = false) :
    getDataframe m s = (m, s, Except.ok (none : Option Nat)) := by
  simp only [getDataframe, hld]
  split <;> simp_all

/-- A concrete pandas table, connector, environment and states used by the
closed witness/counterexample theorems. -/
def tblW : Table :=
  ⟨Backend.pandas, [⟨"a", Dtype.object, [Cell.str "x", Cell.str "y"]⟩]⟩

def connW : Connector := ⟨tblW, none, "h", 0⟩

def envW : Env :=
  ⟨Backend.pandas, fun _ => tblW, fun _ => tblW, fun _ => tblW, fun _ => [tblW]⟩

def memW : Mem := ⟨[]⟩

def stW : CoreState := ⟨none, false, false, some connW, none⟩

/-- C1: on a state holder with a Connector, after a successful
`load_connector(temporary=True)`, exactly one subsequent `dataframe` read
returns the materialized table (the value `connector.execute()` produced);
that read performs the unload transition after producing its result, so a
second read (without reloading) returns `None`, while `has_connector`
remains true and the Connector is retained. -/
theorem c1_temporary_load_single_read
    (env : Env) (m : Mem) (s : CoreState) (c : Connector)
    (hc : s.connector = some c)
    (hdet : c.result.backend ≠ Backend.other)
    (hcompat : c.result.backend = Backend.polars ∨ c.result.backend = env.cfg) :
    ∃ m1 s1 m2 s2 r1,
      loadConnector env m s true = (m1, s1, Except.ok ()) ∧
      getDataframe m1 s1 = (m2, s2, Except.ok (some r1)) ∧
      m2.get r1 = c.result ∧
      s2.hasConnector = true ∧
      s2.connector = some c ∧
      s2.dfLoaded = false ∧
      getDataframe m2 s2 = (m2, s2, Except.ok (none : Option Nat)) := by
  have hL := loadConnector_ok env m s c true hc hdet hcompat
  set m1 : Mem := ⟨m.tables ++ [c.result]⟩ with hm1
  set s1 : CoreState :=
    { s with df := some m.tables.length, engine := some c.result.backend,
             dfLoaded := true, temporaryLoaded := true } with hs1
  have hG := getDataframe_loaded m1 s1 m.tables.length c.result.backend rfl rfl rfl hdet
  have hget : m1.get m.tables.length = c.result := Mem.get_alloc_self m c.result
  rw [hget] at hG
  have hconn : s1.hasConnector = true := by
    simp [CoreState.hasConnector, hs1, hc]
  rw [if_pos ⟨hconn, rfl⟩] at hG
  refine ⟨m1, s1, ⟨m1.tables ++ [c.result]⟩, unloadConnector s1, m1.tables.length,
    hL, hG, Mem.get_alloc_self m1 c.result, ?_, ?_, rfl, ?_⟩
  · simp [unloadConnector, CoreState.hasConnector, hs1, hc]
  · simp [unloadConnector, hs1, hc]
  · exact getDataframe_unloaded _ _ rfl

/-- Closed witness for C1 at a concrete connector-backed state holder. -/
theorem c1_temporary_load_single_read_witness :
    ∃ m1 s1 m2 s2 r1,
      loadConnector envW memW stW true = (m1, s1, Except.ok ()) ∧
      getDataframe m1 s1 = (m2, s2, Except.ok (some r1)) ∧
      m2.get r1 = connW.result ∧
      s2.hasConnector = true ∧
      s2.connector = some connW ∧
      s2.dfLoaded = false ∧
      getDataframe m2 s2 = (m2, s2, Except.ok (none : Option Nat)) :=
  c1_temporary_load_single_read envW memW stW connW rfl (by decide) (Or.inr rfl)

/-- C2: in a loaded state, the `dataframe` read returns a fresh object
(`.copy()` / `.clone()` per engine) whose value equals the owned table but
whose reference differs from the owned one; mutating the returned object
does not change the owned table, and any subsequent read still returns the
original value. -/
theorem c2_copy_on_read (m : Mem) (s : CoreState) (r : Nat) (e : Backend)
    (hld : s.dfLoaded = true) (hdf : s.df = some r) (heng : s.engine = some e)
    (he : e ≠ Backend.other) (hr : r < m.tables.length) :
    ∃ m1 s1 r1,
      getDataframe m s = (m1, s1, Except.ok (some r1)) ∧
      r1 ≠ r ∧
      m1.get r1 = m.get r ∧
      (∀ t' : Table, (m1.set r1 t').get r = m.get r) ∧
      (s1.dfLoaded = true →
        ∀ t' : Table, ∃ m2 s2 r2,
          getDataframe (m1.set r1 t') s1 = (m2, s2, Except.ok (some r2)) ∧
          m2.get r2 = m.get r) := by
  have hG := getDataframe_loaded m s r e hld hdf heng he
  have hmut : ∀ t' : Table,
      ((⟨m.tables ++ [m.get r]⟩ : Mem).set m.tables.length t').get r = m.get r := by
    intro t'
    rw [Mem.get_set_ne _ _ _ _ (Nat.ne_of_lt hr)]
    exact Mem.get_alloc_lt m (m.get r) r hr
  refine ⟨⟨m.tables ++ [m.get r]⟩,
          (if s.hasConnector ∧ s.temporaryLoaded then unloadConnector s else s),
          m.tables.length, hG, (Nat.ne_of_lt hr).symm,
          Mem.get_alloc_self m (m.get r), hmut, ?_⟩
  by_cases hcond : (s.hasConnector ∧ s.temporaryLoaded : Prop)
  · rw [if_pos hcond]
    intro hcontr
    exact absurd hcontr (by simp [unloadConnector])
  · rw [if_neg hcond]
    intro _ t'
    have hr' : r < (((⟨m.tables ++ [m.get r]⟩ : Mem).set m.tables.length t')).tables.length := by
      rw [Mem.set_tables_length]
      simp only [List.length_append, List.length_cons, List.length_nil]
      omega
    have hG2 := getDataframe_loaded ((⟨m.tables ++ [m.get r]⟩ : Mem).set m.tables.length t')
      s r e hld hdf heng he
    refine ⟨_, _, _, hG2, ?_⟩
    calc (Mem.alloc ((⟨m.tables ++ [m.get r]⟩ : Mem).set m.tables.length t')
            (((⟨m.tables ++ [m.get r]⟩ : Mem).set m.tables.length t').get r)).1.get
          ((⟨m.tables ++ [m.get r]⟩ : Mem).set m.tables.length t').tables.length
        = ((⟨m.tables ++ [m.get r]⟩ : Mem).set m.tables.length t').get r :=
          Mem.get_alloc_self _ _
      _ = m.get r := hmut t'

/-- Closed witness for C2 at a concrete directly-loaded pandas table. -/
theorem c2_copy_on_read_witness :
    ∃ m1 s1 r1,
      getDataframe ⟨[tblW]⟩ ⟨some 0, true, false, none, some Backend.pandas⟩ =
        (m1, s1, Except.ok (some r1)) ∧
      r1 ≠ 0 ∧
      m1.get r1 = Mem.get ⟨[tblW]⟩ 0 ∧
      (∀ t' : Table, (m1.set r1 t').get 0 = Mem.get ⟨[tblW]⟩ 0) ∧
      (s1.dfLoaded = true →
        ∀ t' : Table, ∃ m2 s2 r2,
          getDataframe (m1.set r1 t') s1 = (m2, s2, Except.ok (some r2)) ∧
          m2.get r2 = Mem.get ⟨[tblW]⟩ 0) :=
  c2_copy_on_read ⟨[tblW]⟩ ⟨some 0, true, false, none, some Backend.pandas⟩ 0
    Backend.pandas rfl rfl rfl (by decide) (by decide)

/-- C10: `__eq__` between two SmartDataframes returns `False` whenever at
least one side holds no Connector, whatever the connector equality
predicate does — in particular a directly-loaded SmartDataframe is not
equal to itself. -/
theorem c10_eq_requires_connectors (eqFn : Connector → Connector → Bool)
    (a b : CoreState) (h : a.connector = none ∨ b.connector = none) :
    smartEq eqFn a b = false := by
  rcases h with h | h <;> simp [smartEq, CoreState.hasConnector, h]

/-- Closed witness for C10: a directly-loaded state holder compares unequal
to itself even under an always-true connector equality. -/
theorem c10_eq_requires_connectors_witness :
    smartEq (fun _ _ => true)
      ⟨some 0, true, false, none, some Backend.pandas⟩
      ⟨some 0, true, false, none, some Backend.pandas⟩ = false :=
  c10_eq_requires_connectors (fun _ _ => true) _ _ (Or.inl rfl)

/-- C8: engine detection maps a table to its backend tag within
{pandas, modin, polars} and fails with UnrecognizedEngine exactly on other
backends; validation fails with EngineMismatch exactly when the detected
engine is eager (pandas or modin) and differs from the configured eager
backend; a polars table always passes the check. -/
theorem c8_engine_detection (env : Env) (m : Mem) (s : CoreState) (r : Nat)
    (hdf : s.df = some r) :
    (dfType (m.get r) = none ↔ (m.get r).backend = Backend.other) ∧
    (∀ e, dfType (m.get r) = some e → e = (m.get r).backend) ∧
    ((loadEngine env m s).2 = Except.error (PyErr.loadErr LoadError.engineMismatch) ↔
      ((m.get r).backend = Backend.pandas ∨ (m.get r).backend = Backend.modin) ∧
        (m.get r).backend ≠ env.cfg) ∧
    ((loadEngine env m s).2 = Except.error (PyErr.loadErr LoadError.unrecognizedEngine) ↔
      (m.get r).backend = Backend.other) ∧
    ((m.get r).backend = Backend.polars →
      loadEngine env m s = ({ s with engine := some Backend.polars }, Except.ok ())) := by
  cases hb : (m.get r).backend <;> cases hcfg : env.cfg <;>
    simp [loadEngine, dfType, hdf, hb, hcfg]

/-- Closed witness for C8 at a concrete modin table under a pandas-configured
process (the mismatch case). -/
theorem c8_engine_detection_witness :
    (dfType (Mem.get ⟨[⟨Backend.modin, []⟩]⟩ 0) = none ↔
      (Mem.get ⟨[⟨Backend.modin, []⟩]⟩ 0).backend = Backend.other) ∧
    (∀ e, dfType (Mem.get ⟨[⟨Backend.modin, []⟩]⟩ 0) = some e →
      e = (Mem.get ⟨[⟨Backend.modin, []⟩]⟩ 0).backend) ∧
    ((loadEngine envW ⟨[⟨Backend.modin, []⟩]⟩
        ⟨some 0, true, false, none, none⟩).2 =
        Except.error (PyErr.loadErr LoadError.engineMismatch) ↔
      ((Mem.get ⟨[⟨Backend.modin, []⟩]⟩ 0).backend = Backend.pandas ∨
        (Mem.get ⟨[⟨Backend.modin, []⟩]⟩ 0).backend = Backend.modin) ∧
        (Mem.get ⟨[⟨Backend.modin, []⟩]⟩ 0).backend ≠ envW.cfg) ∧
    ((loadEngine envW ⟨[⟨Backend.modin, []⟩]⟩
        ⟨some 0, true, false, none, none⟩).2 =
        Except.error (PyErr.loadErr LoadError.unrecognizedEngine) ↔
      (Mem.get ⟨[⟨Backend.modin, []⟩]⟩ 0).backend = Backend.other) ∧
    ((Mem.get ⟨[⟨Backend.modin, []⟩]⟩ 0).backend = Backend.polars →
      loadEngine envW ⟨[⟨Backend.modin, []⟩]⟩ ⟨some 0, true, false, none, none⟩ =
        ({ df := some 0, dfLoaded := true, temporaryLoaded := false,
           connector := none, engine := some Backend.polars }, Except.ok ())) :=
  c8_engine_detection envW ⟨[⟨Backend.modin, []⟩]⟩ ⟨some 0, true, false, none, none⟩ 0 rfl

/-- A concrete store holding a pandas table and a modin table, and a state
holder that has loaded the pandas one. -/
def memC5 : Mem := ⟨[tblW, ⟨Backend.modin, []⟩]⟩

def stC5 : CoreState := ⟨some 0, true, false, none, some Backend.pandas⟩

/-- C5 counterexample: assigning a modin table under a pandas-configured
process raises EngineMismatch, yet the owned-table slot has already been
overwritten — the state holder does not remain in its prior state. -/
theorem c5_counterexample_partial_state :
    (setDataframe envW memC5 stC5 (DFInput.table 1)).2.2 =
      Except.error (PyErr.loadErr LoadError.engineMismatch) ∧
    (setDataframe envW memC5 stC5 (DFInput.table 1)).2.1.df = some 1 ∧
    stC5.df = some 0 := by
  refine ⟨?_, ?_, rfl⟩ <;> rfl

theorem import_from_file_error (p : String) (e0 : LoadError)
    (h : import_from_file p = .error e0) : e0 = .invalidFileFormat := by
  unfold import_from_file at h
  repeat' split at h
  all_goals simp_all

theorem runRoute_error (env : Env) (route : Route) (e1 : PyErr)
    (h : runRoute env route = .error e1) : e1 = PyErr.indexError := by
  cases route with
  | csv p => simp [runRoute] at h
  | parquet p => simp [runRoute] at h
  | xlsx p => simp [runRoute] at h
  | gsheetFirst p =>
    unfold runRoute at h
    repeat' split at h
    all_goals simp_all

theorem setDataframe_listLike_some (env : Env) (m : Mem) (s : CoreState) (t : Table) :
    setDataframe env m s (.listLike (some t)) =
      match dfType t with
      | none =>
        ((m.alloc t).1, { s with df := some (m.alloc t).2 },
         .error (.loadErr .unrecognizedEngine))
      | some eng =>
        if eng ≠ Backend.polars ∧ t.backend ≠ env.cfg then
          ((m.alloc t).1, { s with df := some (m.alloc t).2 },
           .error (.loadErr .engineMismatch))
        else
          ((m.alloc t).1, { s with df := some (m.alloc t).2, engine := some eng },
           .ok ()) := by
  cases h : dfType t with
  | none => simp [setDataframe, validateAndConvert, loadEngine, Mem.get_alloc_self, h]
  | some eng =>
    by_cases hcond : eng ≠ Backend.polars ∧ t.backend ≠ env.cfg <;>
      simp [setDataframe, validateAndConvert, loadEngine, Mem.get_alloc_self, h, hcond]

theorem setDataframe_str_eq (env : Env) (m : Mem) (s : CoreState) (p : String) :
    setDataframe env m s (.str p) =
      match import_from_file p with
      | .error e => (m, s, .error (.loadErr e))
      | .ok route =>
        match runRoute env route with
        | .error e => (m, s, .error e)
        | .ok t => setDataframe env m s (.listLike (some t)) := by
  cases hi : import_from_file p with
  | error e0 => simp [setDataframe, validateAndConvert, hi]
  | ok route =>
    cases hr : runRoute env route with
    | error e1 => simp [setDataframe, validateAndConvert, hi, hr]
    | ok t => simp [setDataframe, validateAndConvert, hi, hr]

theorem setDataframe_table_err (env : Env) (m : Mem) (s : CoreState) (r : Nat)
    (m' : Mem) (s' : CoreState) (e : PyErr)
    (h : setDataframe env m s (.table r) = (m', s', .error e)) :
    s' = { s with df := some r } ∧
    (e = PyErr.loadErr LoadError.unrecognizedEngine ∨
     e = PyErr.loadErr LoadError.engineMismatch) := by
  rw [setDataframe_table] at h
  cases hd : dfType (m.get r) with
  | none =>
    simp only [hd] at h
    simp only [Prod.mk.injEq, Except.error.injEq] at h
    obtain ⟨_, hs, he⟩ := h
    exact ⟨hs.symm, Or.inl he.symm⟩
  | some eng =>
    simp only [hd] at h
    by_cases hcond : eng ≠ Backend.polars ∧ (m.get r).backend ≠ env.cfg
    · rw [if_pos hcond] at h
      simp only [Prod.mk.injEq, Except.error.injEq] at h
      obtain ⟨_, hs, he⟩ := h
      exact ⟨hs.symm, Or.inr he.symm⟩
    · rw [if_neg hcond] at h
      simp at h

theorem setDataframe_conv_err (env : Env) (m : Mem) (s : CoreState) (t : Table)
    (m' : Mem) (s' : CoreState) (e : PyErr)
    (h : setDataframe env m s (.listLike (some t)) = (m', s', .error e)) :
    s' = { s with df := some (m.alloc t).2 } ∧
    (e = PyErr.loadErr LoadError.unrecognizedEngine ∨
     e = PyErr.loadErr LoadError.engineMismatch) := by
  rw [setDataframe_listLike_some] at h
  cases hd : dfType t with
  | none =>
    simp only [hd] at h
    simp only [Prod.mk.injEq, Except.error.injEq] at h
    obtain ⟨_, hs, he⟩ := h
    exact ⟨hs.symm, Or.inl he.symm⟩
  | some eng =>
    simp only [hd] at h
    by_cases hcond : eng ≠ Backend.polars ∧ t.backend ≠ env.cfg
    · rw [if_pos hcond] at h
      simp only [Prod.mk.injEq, Except.error.injEq] at h
      obtain ⟨_, hs, he⟩ := h
      exact ⟨hs.symm, Or.inr he.symm⟩
    · rw [if_neg hcond] at h
      simp at h

/-- C5 as amended: on every failed `dataframe` assignment the engine tag,
load flags and connector are unchanged; failures raised while normalizing
the input (InvalidFileFormat, UnconvertibleInput, IndexError from the
remote-sheet import) leave the whole state and store unchanged; failures
raised by engine validation (UnrecognizedEngine, EngineMismatch) happen
after `_df` has been overwritten with the new table. -/
theorem c5_failed_load_state (env : Env) (m : Mem) (s : CoreState) (inp : DFInput)
    (m' : Mem) (s' : CoreState) (e : PyErr)
    (h : setDataframe env m s inp = (m', s', Except.error e)) :
    s'.engine = s.engine ∧ s'.dfLoaded = s.dfLoaded ∧
    s'.temporaryLoaded = s.temporaryLoaded ∧ s'.connector = s.connector ∧
    ((e = PyErr.loadErr LoadError.invalidFileFormat ∨
      e = PyErr.loadErr LoadError.unconvertibleInput ∨
      e = PyErr.indexError) → m' = m ∧ s' = s) ∧
    ((e = PyErr.loadErr LoadError.unrecognizedEngine ∨
      e = PyErr.loadErr LoadError.engineMismatch) → ∃ r, s'.df = some r) := by
  have hsplit :
      (m' = m ∧ s' = s ∧
        (e = PyErr.loadErr LoadError.invalidFileFormat ∨
         e = PyErr.loadErr LoadError.unconvertibleInput ∨
         e = PyErr.indexError)) ∨
      (∃ r, s' = { s with df := some r } ∧
        (e = PyErr.loadErr LoadError.unrecognizedEngine ∨
         e = PyErr.loadErr LoadError.engineMismatch)) := by
    cases inp with
    | table r =>
      exact Or.inr ⟨r, setDataframe_table_err env m s r m' s' e h⟩
    | pyNone =>
      simp [setDataframe, validateAndConvert] at h
    | str p =>
      rw [setDataframe_str_eq] at h
      cases hi : import_from_file p with
      | error e0 =>
        simp only [hi] at h
        have he0 := import_from_file_error p e0 hi
        subst he0
        simp only [Prod.mk.injEq, Except.error.injEq] at h
        obtain ⟨hm, hs, he⟩ := h
        exact Or.inl ⟨hm.symm, hs.symm, Or.inl he.symm⟩
      | ok route =>
        simp only [hi] at h
        cases hr : runRoute env route with
        | error e1 =>
          simp only [hr] at h
          have he1 := runRoute_error env route e1 hr
          subst he1
          simp only [Prod.mk.injEq, Except.error.injEq] at h
          obtain ⟨hm, hs, he⟩ := h
          exact Or.inl ⟨hm.symm, hs.symm, Or.inr (Or.inr he.symm)⟩
        | ok t =>
          simp only [hr] at h
          exact Or.inr ⟨_, setDataframe_conv_err env m s t m' s' e h⟩
    | listLike conv =>
      cases conv with
      | none =>
        simp only [setDataframe, validateAndConvert] at h
        simp only [Prod.mk.injEq, Except.error.injEq] at h
        obtain ⟨hm, hs, he⟩ := h
        exact Or.inl ⟨hm.symm, hs.symm, Or.inr (Or.inl he.symm)⟩
      | some t =>
        exact Or.inr ⟨_, setDataframe_conv_err env m s t m' s' e h⟩
  rcases hsplit with ⟨hm, hs, he⟩ | ⟨r0, hs, he⟩
  · subst hm; subst hs
    refine ⟨rfl, rfl, rfl, rfl, fun _ => ⟨rfl, rfl⟩, fun hcontra => ?_⟩
    rcases he with he | he | he <;> subst he <;>
      rcases hcontra with hc | hc <;> simp at hc
  · subst hs
    refine ⟨rfl, rfl, rfl, rfl, fun hcontra => ?_, fun _ => ⟨r0, rfl⟩⟩
    rcases he with he | he <;> subst he <;>
      rcases hcontra with hc | hc | hc <;> simp at hc

/-- Closed witness for C5 (amended), instantiated at the concrete
engine-mismatch assignment. -/
theorem c5_failed_load_state_witness :
    ({ stC5 with df := some 1 } : CoreState).engine = stC5.engine ∧
    ({ stC5 with df := some 1 } : CoreState).dfLoaded = stC5.dfLoaded ∧
    ({ stC5 with df := some 1 } : CoreState).temporaryLoaded = stC5.temporaryLoaded ∧
    ({ stC5 with df := some 1 } : CoreState).connector = stC5.connector ∧
    ((PyErr.loadErr LoadError.engineMismatch = PyErr.loadErr LoadError.invalidFileFormat ∨
      PyErr.loadErr LoadError.engineMismatch = PyErr.loadErr LoadError.unconvertibleInput ∨
      PyErr.loadErr LoadError.engineMismatch = PyErr.indexError) →
        memC5 = memC5 ∧ ({ stC5 with df := some 1 } : CoreState) = stC5) ∧
    ((PyErr.loadErr LoadError.engineMismatch = PyErr.loadErr LoadError.unrecognizedEngine ∨
      PyErr.loadErr LoadError.engineMismatch = PyErr.loadErr LoadError.engineMismatch) →
        ∃ r, ({ stC5 with df := some 1 } : CoreState).df = some r) :=
  c5_failed_load_state envW memC5 stC5 (DFInput.table 1) memC5
    { stC5 with df := some 1 } (PyErr.loadErr LoadError.engineMismatch) (by rfl)

/-- C9 counterexample: a Google-Sheets URL whose path happens to end in
`.csv` satisfies the recognized remote-spreadsheet prefix, yet it is routed
to the CSV file reader, not to the remote-sheet importer as the claim
states for every prefix-matching string. -/
theorem c9_counterexample_prefix_with_suffix :
    strStartsWith "https://docs.google.com/spreadsheets/d/x.csv"
      "https://docs.google.com/spreadsheets/" = true ∧
    import_from_file "https://docs.google.com/spreadsheets/d/x.csv" =
      Except.ok (Route.csv "https://docs.google.com/spreadsheets/d/x.csv") ∧
    Route.csv "https://docs.google.com/spreadsheets/d/x.csv" ≠
      Route.gsheetFirst "https://docs.google.com/spreadsheets/d/x.csv" := by
  refine ⟨by decide, by rfl, by decide⟩

/-- C9 as amended: direct-load string dispatch tries the three suffixes in
order first; only a string matching none of them but carrying the
remote-spreadsheet URL prefix goes to the remote-sheet importer, which uses
the first sheet of the import result; a string matching nothing fails with
InvalidFileFormat. -/
theorem c9_string_dispatch (p : String) (env : Env) :
    (strEndsWith p ".csv" = true → import_from_file p = .ok (.csv p)) ∧
    (strEndsWith p ".csv" = false → strEndsWith p ".parquet" = true →
      import_from_file p = .ok (.parquet p)) ∧
    (strEndsWith p ".csv" = false → strEndsWith p ".parquet" = false →
      strEndsWith p ".xlsx" = true → import_from_file p = .ok (.xlsx p)) ∧
    (strEndsWith p ".csv" = false → strEndsWith p ".parquet" = false →
      strEndsWith p ".xlsx" = false →
      strStartsWith p "https://docs.google.com/spreadsheets/" = true →
      import_from_file p = .ok (.gsheetFirst p) ∧
      ∀ t ts, env.gsheets p = t :: ts →
        runRoute env (.gsheetFirst p) = .ok t) ∧
    (strEndsWith p ".csv" = false → strEndsWith p ".parquet" = false →
      strEndsWith p ".xlsx" = false →
      strStartsWith p "https://docs.google.com/spreadsheets/" = false →
      import_from_file p = .error .invalidFileFormat) := by
  refine ⟨?_, ?_, ?_, ?_, ?_⟩
  · intro h1
    simp [import_from_file, h1]
  · intro h1 h2
    simp [import_from_file, h1, h2]
  · intro h1 h2 h3
    simp [import_from_file, h1, h2, h3]
  · intro h1 h2 h3 h4
    refine ⟨by simp [import_from_file, h1, h2, h3, h4], ?_⟩
    intro t ts hg
    simp [runRoute, hg]
  · intro h1 h2 h3 h4
    simp [import_from_file, h1, h2, h3, h4]

/-- Closed witness for C9 (amended) at a plain CSV path. -/
theorem c9_string_dispatch_witness :
    import_from_file "data.csv" = Except.ok (Route.csv "data.csv") :=
  (c9_string_dispatch "data.csv" envW).1 (by decide)

/-- A string of `n` copies of `c`. -/
def strRepeat (c : Char) (n : Nat) : String := String.mk (List.replicate n c)

/-- A pandas table with one object column whose two cells are 40-character
strings — the failing input for the truncation rule. -/
def dfC3 : Table :=
  ⟨Backend.pandas,
   [⟨"c", Dtype.object, [Cell.str (strRepeat 'a' 40), Cell.str (strRepeat 'b' 40)]⟩]⟩

/-- Modelled from the spec: the truncation rule of §4.4 step 7 as worded —
for every textual column whose first value is a string longer than 25
characters, replace every value in that column with its first 22 characters
followed by the ellipsis marker. -/
def spec_truncate_column (maxSize : Nat) (c : Column) : Column :=
  if c.dtype = Dtype.object then
    match c.cells with
    | Cell.str s :: _ =>
      if maxSize < s.length then
        { c with cells := c.cells.map (fun x =>
            match x with
            | Cell.str v => Cell.str (String.mk (v.data.take (maxSize - 3)) ++ "...")
            | Cell.na => Cell.na) }
      else c
    | _ => c
  else c

/-- Modelled from the spec: column-wise truncation of a whole table. -/
def spec_truncate_head_columns (t : Table) : Table :=
  { t with cols := t.cols.map (spec_truncate_column 25) }

/-- C3 (code bug): on a pandas table whose textual column starts with a
40-character string, `_truncate_head_columns` broadcasts one single value —
the Python `str()` of the sliced Series (`reprFn`) followed by `"..."` — to
every row, because the assignment wraps the Series in an f-string instead
of appending `"..."` element-wise.  The spec requires each cell to become
its own first 22 characters plus `"..."`, giving two distinct cells here;
so for every possible Series rendering the code output differs from the
spec-mandated output. -/
theorem c3_truncation_code_bug (reprFn : List Cell → String) :
    (∃ v : Cell, truncate_head_columns reprFn dfC3 =
      Except.ok ⟨Backend.pandas, [⟨"c", Dtype.object, [v, v]⟩]⟩) ∧
    spec_truncate_head_columns dfC3 =
      ⟨Backend.pandas, [⟨"c", Dtype.object,
        [Cell.str (strRepeat 'a' 22 ++ "..."),
         Cell.str (strRepeat 'b' 22 ++ "...")]⟩]⟩ ∧
    truncate_head_columns reprFn dfC3 ≠
      Except.ok (spec_truncate_head_columns dfC3) := by
  have h1 : truncate_head_columns reprFn dfC3 =
      Except.ok ⟨Backend.pandas, [⟨"c", Dtype.object,
        [Cell.str (reprFn [Cell.str (strRepeat 'a' 22), Cell.str (strRepeat 'b' 22)] ++ "..."),
         Cell.str (reprFn [Cell.str (strRepeat 'a' 22), Cell.str (strRepeat 'b' 22)] ++ "...")]⟩]⟩ := by
    rfl
  have h2 : spec_truncate_head_columns dfC3 =
      ⟨Backend.pandas, [⟨"c", Dtype.object,
        [Cell.str (strRepeat 'a' 22 ++ "..."),
         Cell.str (strRepeat 'b' 22 ++ "...")]⟩]⟩ := by
    rfl
  refine ⟨⟨_, h1⟩, h2, ?_⟩
  intro h
  rw [h1, h2] at h
  injection h with h'
  injection h' with hback hcols
  injection hcols with hcol hrest
  injection hcol with hname hdtype hcells
  injection hcells with hc0 hc1rest
  injection hc1rest with hc1 hnil
  injection hc0 with hs0
  injection hc1 with hs1
  exact absurd (hs0.symm.trans hs1) (by decide)

/-- C4 as amended: when a custom head override is supplied, the sample-head
builder uses it as the base preview (bypassing the connector head and the
live dataframe), but still applies the sampling transform and — unless
privacy is enforced — the truncation step to it, and leaves the state
holder untouched. -/
theorem c4_custom_head_pipeline (reprFn : List Cell → String) (m : Mem)
    (s : CoreState) (ch : Table) (privacy : Bool) :
    getSampleHead reprFn m s (some ch) privacy =
      (m, s,
       if privacy then Except.ok (some (dataSamplerSample ch 0))
       else
         match truncate_head_columns reprFn (dataSamplerSample ch 3) with
         | .ok t => Except.ok (some t)
         | .error e => Except.error e) := by
  cases privacy with
  | true => simp [getSampleHead]
  | false =>
    simp only [getSampleHead, Bool.false_eq_true, if_false]
    split <;> rfl

/-- A concrete custom head with two rows of short strings. -/
def chC4 : Table :=
  ⟨Backend.pandas, [⟨"c", Dtype.object, [Cell.str "hello", Cell.str "world"]⟩]⟩

/-- C4 counterexample: the sample-head builder does not return the supplied
custom head verbatim — under privacy enforcement the custom head is run
through the sampling transform at row budget 0, so the produced preview
(zero rows) differs from the custom head (two rows). -/
theorem c4_counterexample_not_verbatim :
    getSampleHead (fun _ => "") memW ⟨some 0, true, false, none, some Backend.pandas⟩
        (some chC4) true =
      (memW, ⟨some 0, true, false, none, some Backend.pandas⟩,
       Except.ok (some ⟨Backend.pandas, [⟨"c", Dtype.object, []⟩]⟩)) ∧
    (⟨Backend.pandas, [⟨"c", Dtype.object, []⟩]⟩ : Table) ≠ chC4 :=
  ⟨rfl, by decide⟩

theorem sample_zero_rows (h0 : Table) :
    ∀ c ∈ (dataSamplerSample h0 0).cols, c.cells = [] := by
  intro c hc
  simp only [dataSamplerSample, Table.head, List.mem_map] at hc
  obtain ⟨c0, -, hc0⟩ := hc
  rw [← hc0]
  simp

/-- C7: with privacy enforced, whenever the sample-head builder produces a
preview it is exactly the output of the sampling transform at row budget 0
(the truncation step is not applied), and every column of it is empty. -/
theorem c7_privacy_zero_rows (reprFn : List Cell → String) (m : Mem)
    (s : CoreState) (customHead : Option Table) (m' : Mem) (s' : CoreState)
    (t : Table)
    (h : getSampleHead reprFn m s customHead true = (m', s', Except.ok (some t))) :
    (∃ h0, t = dataSamplerSample h0 0) ∧ ∀ c ∈ t.cols, c.cells = [] := by
  simp only [getSampleHead, if_true] at h
  repeat' split at h
  all_goals
    simp only [Prod.mk.injEq, Except.ok.injEq, Option.some.injEq, reduceCtorEq,
      and_false, false_and] at h
  all_goals
    obtain ⟨-, -, ht⟩ := h
  all_goals subst ht
  all_goals exact ⟨⟨_, rfl⟩, sample_zero_rows _⟩

theorem string_join_data (l : List String) :
    (String.join l).data = (l.map String.data).flatten := by
  have haux : ∀ (l : List String) (acc : String),
      (l.foldl (fun r s => r ++ s) acc).data = acc.data ++ (l.map String.data).flatten := by
    intro l
    induction l with
    | nil => intro acc; simp
    | cons x xs ih =>
      intro acc
      simp only [List.foldl_cons, List.map_cons, List.flatten_cons]
      rw [ih, String.data_append, List.append_assoc]
  have h := haux l ""
  simpa [String.join] using h

/-- Two concrete loaded tables differing only in an added empty-named
column (and in row content). -/
def tblC6A : Table := ⟨Backend.pandas, [⟨"a", Dtype.object, [Cell.str "1"]⟩]⟩

def tblC6B : Table :=
  ⟨Backend.pandas, [⟨"a", Dtype.object, [Cell.str "2"]⟩, ⟨"", Dtype.object, [Cell.str "3"]⟩]⟩

/-- C6 counterexample: table B is table A plus one extra column whose name
is the empty string (row contents differ too).  The hash input joins the
names with no separator, so both tables hash the string "a" and
`column_hash` returns identical digests — adding a column does not always
change the result. -/
theorem c6_counterexample_empty_name :
    tblC6B.cols.map Column.name = tblC6A.cols.map Column.name ++ [""] ∧
    (column_hash ⟨[tblC6A]⟩ ⟨some 0, true, false, none, some Backend.pandas⟩).2.2 =
    (column_hash ⟨[tblC6B]⟩ ⟨some 0, true, false, none, some Backend.pandas⟩).2.2 :=
  ⟨rfl, rfl⟩

/-- C6 as amended: for a loaded table, `column_hash` returns the lowercase
hex SHA-256 digest of the UTF-8 encoding of the column names joined in
order with no separator; it depends only on the column-name sequence (row
content and order are irrelevant); renaming one column, or inserting or
removing a column with a non-empty name, changes the joined digest input
(an empty-named column does not); and on the spec's own example the two
digests differ. -/
theorem c6_column_hash_amended :
    (∀ (m : Mem) (s : CoreState) (r : Nat) (e : Backend),
      s.dfLoaded = true → s.df = some r → s.engine = some e →
      e ≠ Backend.other → r < m.tables.length →
      ∃ m' s', column_hash m s =
        (m', s', Except.ok (sha256Hex (utf8Encode (columnsJoined (m.get r)))))) ∧
    (∀ t1 t2 : Table, t1.cols.map Column.name = t2.cols.map Column.name →
      sha256Hex (utf8Encode (columnsJoined t1)) =
        sha256Hex (utf8Encode (columnsJoined t2))) ∧
    (∀ (pre suf : List String) (x y : String), x ≠ y →
      String.join (pre ++ x :: suf) ≠ String.join (pre ++ y :: suf)) ∧
    (∀ (pre suf : List String) (x : String), x ≠ "" →
      String.join (pre ++ x :: suf) ≠ String.join (pre ++ suf)) ∧
    sha256Hex (utf8Encode (String.join ["a", "b"])) ≠
      sha256Hex (utf8Encode (String.join ["a", "c"])) := by
  refine ⟨?_, ?_, ?_, ?_, by decide⟩
  · intro m s r e hld hdf heng he hr
    have hG := getDataframe_loaded m s r e hld hdf heng he
    refine ⟨⟨m.tables ++ [m.get r]⟩,
      (if s.hasConnector ∧ s.temporaryLoaded then unloadConnector s else s), ?_⟩
    have hcond : ¬(s.dfLoaded = false ∧ s.hasConnector = true) := by
      simp [hld]
    simp only [column_hash, hcond, if_neg, hG]
    have hget : (⟨m.tables ++ [m.get r]⟩ : Mem).get m.tables.length = m.get r :=
      Mem.get_alloc_self m (m.get r)
    rw [hget]
    simp
  · intro t1 t2 h
    simp [columnsJoined, h]
  · intro pre suf x y hxy h
    apply hxy
    have hd := congrArg String.data h
    rw [string_join_data, string_join_data] at hd
    simp only [List.map_append, List.map_cons, List.flatten_append, List.flatten_cons] at hd
    have h1 := List.append_cancel_left hd
    exact String.ext (List.append_cancel_right h1)
  · intro pre suf x hx h
    apply hx
    have hd := congrArg (fun s : String => s.data.length) h
    simp only [string_join_data, List.map_append, List.map_cons, List.flatten_append,
      List.flatten_cons, List.length_append] at hd
    have hx0 : x.data.length = 0 := by omega
    exact String.ext (List.eq_nil_of_length_eq_zero hx0)

/-- Closed witness for C6 (amended), applying the hash formula at a
concrete loaded table. -/
theorem c6_column_hash_amended_witness :
    ∃ m' s', column_hash ⟨[tblC6A]⟩ ⟨some 0, true, false, none, some Backend.pandas⟩ =
      (m', s', Except.ok (sha256Hex (utf8Encode (columnsJoined
        (Mem.get ⟨[tblC6A]⟩ 0))))) :=
  c6_column_hash_amended.1 ⟨[tblC6A]⟩ ⟨some 0, true, false, none, some Backend.pandas⟩ 0
    Backend.pandas rfl rfl rfl (by decide) (by decide)

/-- Closed witness for C7 at a concrete privacy-enforced sample head. -/
theorem c7_privacy_zero_rows_witness :
    (∃ h0, (⟨Backend.pandas, [⟨"c", Dtype.object, []⟩]⟩ : Table) =
      dataSamplerSample h0 0) ∧
    ∀ c ∈ (⟨Backend.pandas, [⟨"c", Dtype.object, []⟩]⟩ : Table).cols, c.cells = [] :=
  c7_privacy_zero_rows (fun _ => "") memW
    ⟨some 0, true, false, none, some Backend.pandas⟩ (some chC4) memW
    ⟨some 0, true, false, none, some Backend.pandas⟩
    ⟨Backend.pandas, [⟨"c", Dtype.object, []⟩]⟩ rfl
